import Mathlib

/-!
Shallow embedding of `scripts/download_datasets.py` (BehrensSven/computer-vision).

The script is sequential I/O orchestration: it stages two datasets (GTSDB via a
direct HTTP URL, LISA via the kagglehub client) under a raw-data root
`data/raw/`, writes a README there, verifies hashes by streaming SHA-256, and
extracts zip/tar archives.

Model:
* the filesystem is an association list from paths (segment lists) to nodes
  (file with byte contents, or directory); a path "exists" when some entry has
  it as a prefix, matching `pathlib.Path.exists` on a tree;
* the outside world is an `Env`: what each URL serves, how zip/tar payloads
  decode into members, the SHA-256 hex-digest function (abstract), whether the
  kagglehub import/installs succeed, what the hub download returns, which
  writes fault with an OSError, and whether the user interrupts;
* each Python method becomes a Lean function from a state `St` (filesystem +
  event trace) to a result `R`, where `R.err` models an escaping Python
  exception and carries the state at raise time;
* prints, network GETs, subprocess calls and hub calls are recorded as events.
-/

set_option autoImplicit false

/-- A filesystem path, as a list of segments relative to the project root. -/
abbrev FPath := List String

/-- A filesystem node: a regular file with byte contents, or a directory. -/
inductive Node where
  | file (content : List Nat)
  | dir
deriving DecidableEq, Repr

/-- The filesystem: an association list from paths to nodes (first match wins). -/
abbrev FS := List (FPath × Node)

/-- Observable events of a run: printed lines, network GETs (`urlretrieve`),
subprocess invocations, and kagglehub dataset-download calls. -/
inductive Event where
  | print (msg : String)
  | netGet (url : String)
  | subproc (cmd : List String)
  | hubCall (datasetId : String)
deriving DecidableEq, Repr

/-- Python exceptions that the script can raise or observe. -/
inductive Err where
  | valueError (msg : String)
  | urlError
  | osError
  | badArchive
  | hubError
deriving DecidableEq, Repr

/-- The string representation `str(e)` used when an exception is printed. -/
def Err.toMessage : Err → String
  | .valueError m => m
  | .urlError => "<URLError>"
  | .osError => "<OSError>"
  | .badArchive => "<BadArchiveError>"
  | .hubError => "<KaggleHubError>"

/-- Program state threaded through the embedding: the filesystem and the
trace of observable events so far. -/
structure St where
  fs : FS
  ev : List Event
deriving DecidableEq, Repr

/-- Result of running a fragment of the script: normal return with a value,
or an escaping exception, each carrying the state at that point. -/
inductive R (α : Type) where
  | ok (a : α) (s : St)
  | err (e : Err) (s : St)
deriving DecidableEq, Repr

/-- The external environment the script runs against. -/
structure Env where
  /-- What `urlretrieve` obtains for a URL; `none` is a transport failure. -/
  net : String → Option (List Nat)
  /-- How a byte payload decodes as a zip archive into (member name, data)
  pairs; `none` is a `BadZipFile` failure. -/
  zipDecode : List Nat → Option (List (String × List Nat))
  /-- How a byte payload decodes as a tar archive (compression auto-detected
  by `tarfile.open(mode="r:*")`); `none` is a `ReadError` failure. -/
  tarDecode : List Nat → Option (List (String × List Nat))
  /-- The SHA-256 lowercase hex digest of a byte string, abstract. -/
  sha256hex : List Nat → String
  /-- Whether `import kagglehub` succeeds initially. -/
  kagglehubInstalled : Bool
  /-- Whether the `pipx install kagglehub --include-deps` call succeeds. -/
  pipxOk : Bool
  /-- Whether the `pip install kagglehub --break-system-packages` fallback
  (including the subsequent import) succeeds. -/
  pipOk : Bool
  /-- What `kagglehub.dataset_download` returns for a dataset id, as a local
  path; `none` means the call raises. -/
  hub : String → Option FPath
  /-- Which paths fault with an OSError when written or created. -/
  writeFault : FPath → Bool
  /-- Whether the user interrupts the run (KeyboardInterrupt). -/
  interrupted : Bool

/-- Append one event to the trace. -/
def emit (s : St) (e : Event) : St :=
  { s with ev := s.ev ++ [e] }

/-- Append a list of printed lines to the trace. -/
def emits (s : St) (msgs : List String) : St :=
  { s with ev := s.ev ++ msgs.map Event.print }

/-- First node recorded for a path, if any. -/
def fsFind (fs : FS) (p : FPath) : Option Node :=
  fs.lookup p

/-- Contents of the regular file at a path, if one is recorded there. -/
def fsRead (fs : FS) (p : FPath) : Option (List Nat) :=
  match fsFind fs p with
  | some (Node.file c) => some c
  | _ => none

/-- `Path.exists()`: a path exists when some recorded entry has it as a
prefix (the entry itself, or a descendant that implies the directory). -/
def fsExists (fs : FS) (p : FPath) : Bool :=
  fs.any (fun e => p.isPrefixOf e.1)

/-- `Path.is_dir()`: a directory node is recorded at the path, or some
recorded entry lies strictly below it. -/
def fsIsDir (fs : FS) (p : FPath) : Bool :=
  fs.any (fun e => (e.1 == p && e.2 == Node.dir) || (p.isPrefixOf e.1 && !(e.1 == p)))

/-- Write (create or overwrite) the regular file at a path. -/
def fsWrite (fs : FS) (p : FPath) (content : List Nat) : FS :=
  (p, Node.file content) :: fs.filter (fun e => !(e.1 == p))

/-- `Path.unlink()`: drop the entry at a path. -/
def fsUnlink (fs : FS) (p : FPath) : FS :=
  fs.filter (fun e => !(e.1 == p))

/-- Render a path the way `str(Path(...))` joins segments. -/
def pathStr (p : FPath) : String :=
  String.intercalate "/" p

/-- Split a character list at every occurrence of a separator (the pieces
between separators, like `str.split(sep)` for a one-character separator). -/
def splitChars (sep : Char) : List Char → List (List Char)
  | [] => [[]]
  | c :: rest =>
    let r := splitChars sep rest
    if c = sep then [] :: r
    else (c :: r.headD []) :: r.tail

/-- Split a string at every dot. -/
def strSplitDot (str : String) : List String :=
  (splitChars '.' str.data).map String.mk

/-- Split a string at every slash. -/
def strSplitSlash (str : String) : List String :=
  (splitChars '/' str.data).map String.mk

/-- `pathlib.PurePath.suffix` of a file name: `"." ++` the part after the
last dot, when that dot is neither first nor last character; `""` otherwise. -/
def nameSuffix (name : String) : String :=
  let parts := strSplitDot name
  if parts.length ≤ 1 then ""
  else
    let last := parts.getLastD ""
    if last = "" then ""
    else if parts.length = 2 ∧ parts.headD "" = "" then ""
    else "." ++ last

/-- `Path.suffix`: the suffix of the final path segment. -/
def pathSuffix (p : FPath) : String :=
  nameSuffix (p.getLastD "")

/-- `str.lower()` on the ASCII extensions the script compares against. -/
def strLower (str : String) : String :=
  String.mk (str.data.map Char.toLower)

/-- The raw-data root `data/raw` (relative to the project root). -/
def DATA_DIR : FPath := ["data", "raw"]

/-- Split the fixed-size chunks produced by
`iter(lambda: f.read(4096), b"")` over a file's contents. -/
def chunks4096 (bs : List Nat) : List (List Nat) :=
  if h : bs = [] then []
  else bs.take 4096 :: chunks4096 (bs.drop 4096)
termination_by bs.length
decreasing_by
  simp only [List.length_drop]
  have hlen : 0 < bs.length := List.length_pos.mpr h
  omega

/-- `DatasetDownloader.verify_hash`: stream the file in 4096-byte chunks
through a SHA-256 accumulator (modelled as the accumulated byte string) and
compare the final hex digest with the expected hash. `none` models the
`open` call raising because no regular file is at the path. -/
def verify_hash (env : Env) (fs : FS) (filepath : FPath) (expected_hash : String) :
    Option Bool :=
  match fsRead fs filepath with
  | none => none
  | some content =>
    let accumulated := (chunks4096 content).foldl (fun acc chunk => acc ++ chunk) []
    some (env.sha256hex accumulated == expected_hash)

/-- `DatasetDownloader.download_file`: print, `urlretrieve` the URL to the
destination (overwriting), then if an expected hash was supplied verify it and
raise `ValueError` on mismatch. The `except` clause prints
`Download failed: ...` and re-raises, so every failure escapes. -/
def download_file (env : Env) (s : St) (url : String) (destination : FPath)
    (expected_hash : Option String) : R Unit :=
  let msg0 := "Downloading " ++ url ++ "..."
  let s := emit s (Event.print msg0)
  let s := emit s (Event.netGet url)
  match env.net url with
  | none =>
    let m := Err.urlError.toMessage
    R.err Err.urlError (emit s (Event.print ("Download failed: " ++ m)))
  | some content =>
    if env.writeFault destination then
      let m := Err.osError.toMessage
      R.err Err.osError (emit s (Event.print ("Download failed: " ++ m)))
    else
      let s := { s with fs := fsWrite s.fs destination content }
      let d := pathStr destination
      let s := emit s (Event.print ("Downloaded to " ++ d))
      match expected_hash with
      | none => R.ok () s
      | some h =>
        match verify_hash env s.fs destination h with
        | none =>
          let m := Err.osError.toMessage
          R.err Err.osError (emit s (Event.print ("Download failed: " ++ m)))
        | some true => R.ok () s
        | some false =>
          let m := "Hash verification failed for " ++ d
          R.err (Err.valueError m) (emit s (Event.print ("Download failed: " ++ m)))

/-- Target path of one archive member under the extraction directory. -/
def memberPath (extract_to : FPath) (name : String) : FPath :=
  extract_to ++ strSplitSlash name

/-- Write every archive member under the destination directory; a faulted
write raises an OSError at that point. -/
def extractMembers (env : Env) (s : St) (members : List (String × List Nat))
    (extract_to : FPath) : R Unit :=
  match members with
  | [] => R.ok () s
  | (name, data) :: rest =>
    let p := memberPath extract_to name
    if env.writeFault p then R.err Err.osError s
    else extractMembers env { s with fs := fsWrite s.fs p data } rest extract_to

/-- The `zipfile.ZipFile(...).extractall(...)` branch of `extract_archive`. -/
def extract_zip (env : Env) (s : St) (archive_path extract_to : FPath) : R Unit :=
  match fsRead s.fs archive_path with
  | none => R.err Err.osError s
  | some content =>
    match env.zipDecode content with
    | none => R.err Err.badArchive s
    | some members => extractMembers env s members extract_to

/-- The `tarfile.open(..., "r:*").extractall(...)` branch of `extract_archive`. -/
def extract_tar (env : Env) (s : St) (archive_path extract_to : FPath) : R Unit :=
  match fsRead s.fs archive_path with
  | none => R.err Err.osError s
  | some content =>
    match env.tarDecode content with
    | none => R.err Err.badArchive s
    | some members => extractMembers env s members extract_to

/-- `DatasetDownloader.extract_archive`: dispatch on the lower-cased file
extension — `.zip` to zip extraction, `.tar`/`.gz`/`.tgz` to tar extraction,
anything else raises `ValueError("Unsupported archive format: ...")`. -/
def extract_archive (env : Env) (s : St) (archive_path extract_to : FPath) : R Unit :=
  let ap := pathStr archive_path
  let s := emit s (Event.print ("Extracting " ++ ap ++ "..."))
  let suf := strLower (pathSuffix archive_path)
  if suf == ".zip" then
    match extract_zip env s archive_path extract_to with
    | R.err e s1 => R.err e s1
    | R.ok _ s1 =>
      let d := pathStr extract_to
      R.ok () (emit s1 (Event.print ("Extracted to " ++ d)))
  else if suf == ".tar" || suf == ".gz" || suf == ".tgz" then
    match extract_tar env s archive_path extract_to with
    | R.err e s1 => R.err e s1
    | R.ok _ s1 =>
      let d := pathStr extract_to
      R.ok () (emit s1 (Event.print ("Extracted to " ++ d)))
  else
    let raw := pathSuffix archive_path
    R.err (Err.valueError ("Unsupported archive format: " ++ raw)) s

/-- The hard-coded GTSDB archive URL. -/
def GTSDB_URL : String :=
  "https://sid.erda.dk/public/archives/ff17dc924eba88d5d01a807357d6614c/FullIJCNN2013.zip"

/-- The manual-fallback page printed when the GTSDB download fails. -/
def GTSDB_FALLBACK_URL : String :=
  "https://sid.erda.dk/public/archives/ff17dc924eba88d5d01a807357d6614c/published-archive.html"

/-- Target directory of the direct (GTSDB) dataset. -/
def gtsdbDir : FPath := DATA_DIR ++ ["GTSDB"]

/-- Temporary download path of the GTSDB archive. -/
def gtsdbArchivePath : FPath := DATA_DIR ++ ["FullIJCNN2013.zip"]

/-- The `except` clause of `download_gtsdb`: log the error and the manual
fallback URL, and return normally (the failure does not propagate). -/
def gtsdbFallback (e : Err) (s : St) : R Unit :=
  let m := e.toMessage
  R.ok () (emits s
    ["Error downloading GTSDB: " ++ m,
     "You can manually download from:",
     GTSDB_FALLBACK_URL])

/-- `DatasetDownloader.download_gtsdb`: skip when the target path exists;
otherwise download the fixed URL to a temporary archive (no expected hash),
extract into the raw-data root, delete the archive. Every failure in the
try-block is caught by `gtsdbFallback`. -/
def download_gtsdb (env : Env) (s : St) : R Unit :=
  if fsExists s.fs gtsdbDir then
    R.ok () (emit s (Event.print "GTSDB already exists, skipping download."))
  else
    let s := emit s (Event.print "=== Downloading GTSDB Dataset ===")
    let s := emits s
      ["Downloading GTSDB Full IJCNN 2013 dataset (~2.7GB)...",
       "This may take several minutes depending on your connection."]
    match download_file env s GTSDB_URL gtsdbArchivePath none with
    | R.err e s1 => gtsdbFallback e s1
    | R.ok _ s1 =>
      match extract_archive env s1 gtsdbArchivePath DATA_DIR with
      | R.err e s2 => gtsdbFallback e s2
      | R.ok _ s2 =>
        let s3 := { s2 with fs := fsUnlink s2.fs gtsdbArchivePath }
        R.ok () (emit s3 (Event.print "GTSDB download and extraction completed!"))

/-- `DatasetDownloader.install_kagglehub`: try the import, then
`pipx install`, then `pip install --break-system-packages`; every subprocess
failure is caught, so this only reports availability. -/
def install_kagglehub (env : Env) (s : St) : Bool × St :=
  if env.kagglehubInstalled then (true, s)
  else
    let s := emit s (Event.print "kagglehub not found. Installing via pipx...")
    let s := emit s (Event.subproc ["pipx", "install", "kagglehub", "--include-deps"])
    if env.pipxOk then (true, s)
    else
      let s := emit s (Event.print "pipx install failed: <CalledProcessError>")
      let s := emit s (Event.print "Trying pip with --break-system-packages...")
      let s := emit s
        (Event.subproc ["python", "-m", "pip", "install", "kagglehub", "--break-system-packages"])
      if env.pipOk then (true, s)
      else
        (false, emits s
          ["Failed to install kagglehub: <CalledProcessError>",
           "Please install manually:",
           "pipx install kagglehub --include-deps",
           "or: pip install kagglehub --break-system-packages"])

/-- Target directory of the hub (LISA) dataset. -/
def lisaDir : FPath := DATA_DIR ++ ["LISA"]

/-- The kagglehub dataset identifier for LISA. -/
def LISA_ID : String := "mbornoe/lisa-traffic-light-dataset"

/-- The `except` clause of `download_lisa`: log the error and the manual
fallback instructions, and return normally. -/
def lisaFallback (e : Err) (s : St) : R Unit :=
  let m := e.toMessage
  R.ok () (emits s
    ["Error downloading LISA dataset: " ++ m,
     "You can manually download from:",
     "https://www.kaggle.com/datasets/mbornoe/lisa-traffic-light-dataset",
     "Or use: kagglehub.dataset_download(\x27mbornoe/lisa-traffic-light-dataset\x27)"])

/-- `shutil.copytree(src, dst)`: copy every entry whose path lies under `src`
to the same relative position under `dst`, creating `dst`; `none` models an
OSError when any target write faults. -/
def copytree (env : Env) (fs : FS) (src dst : FPath) : Option FS :=
  let sub := fs.filter (fun e => src.isPrefixOf e.1)
  let targets := sub.map (fun e => (dst ++ e.1.drop src.length, e.2))
  if env.writeFault dst || targets.any (fun e => env.writeFault e.1) then none
  else some ((dst, Node.dir) :: targets ++ fs)

/-- `DatasetDownloader.download_lisa`: skip when the target path exists;
otherwise ensure kagglehub is available (giving up gracefully if not), call
the hub download, then copy a returned directory or extract a returned file
into the target. Every failure in the try-block is caught by `lisaFallback`. -/
def download_lisa (env : Env) (s : St) : R Unit :=
  if fsExists s.fs lisaDir then
    R.ok () (emit s (Event.print "LISA already exists, skipping download."))
  else
    let s := emit s (Event.print "=== Downloading LISA Dataset from Kaggle ===")
    match install_kagglehub env s with
    | (false, s1) =>
      R.ok () (emits s1
        ["Error: Could not install kagglehub.",
         "Please install manually: pip install kagglehub"])
    | (true, s1) =>
      let s1 := emits s1
        ["Downloading LISA traffic light dataset from Kaggle...",
         "This may take several minutes depending on your connection."]
      let s1 := emit s1 (Event.hubCall LISA_ID)
      match env.hub LISA_ID with
      | none => lisaFallback Err.hubError s1
      | some downloaded_path =>
        let d := pathStr downloaded_path
        let s1 := emit s1 (Event.print ("Dataset downloaded to: " ++ d))
        if fsExists s1.fs downloaded_path then
          if fsIsDir s1.fs downloaded_path then
            match copytree env s1.fs downloaded_path lisaDir with
            | none => lisaFallback Err.osError s1
            | some fs1 =>
              R.ok () (emit { s1 with fs := fs1 } (Event.print "LISA dataset setup completed!"))
          else
            match extract_archive env s1 downloaded_path lisaDir with
            | R.err e s2 => lisaFallback e s2
            | R.ok _ s2 => R.ok () (emit s2 (Event.print "LISA dataset setup completed!"))
        else
          R.ok () (emit s1 (Event.print ("Downloaded path " ++ d ++ " not found.")))

/-- The fixed README text written at the raw-data root. -/
def README_CONTENT : String :=
  "# Datasets\n\nThis directory contains the computer vision datasets for this project.\n\n" ++
  "## GTSDB (German Traffic Sign Detection Benchmark)\n- Source: http://benchmark.ini.rub.de/\n" ++
  "- Size: ~2.7GB\n- Contains: German traffic sign images with annotations\n\n" ++
  "## LISA (Laboratory for Intelligent & Safe Automobiles)\n" ++
  "- Source: https://www.kaggle.com/datasets/mbornoe/lisa-traffic-light-dataset\n" ++
  "- Size: ~4.9GB  \n- Contains: US traffic sign images with annotations\n" ++
  "- Downloaded via: kagglehub\n\n## Setup\nTo download the datasets, run:\n" ++
  "```bash\npython scripts/download_datasets.py\n```\n\n" ++
  "Note: Some datasets require manual download due to license agreements.\n"

/-- The README text as the byte-like contents stored in the model filesystem. -/
def readmeBytes : List Nat := README_CONTENT.toList.map Char.toNat

/-- Path of the generated README. -/
def readmePath : FPath := DATA_DIR ++ ["README.md"]

/-- `DatasetDownloader.create_readme`: open `README.md` at the raw-data root
in write mode (truncating whatever was there) and write the fixed text; no
existence check guards it. A faulted write raises an OSError. -/
def create_readme (env : Env) (s : St) : R Unit :=
  if env.writeFault readmePath then R.err Err.osError s
  else R.ok () { s with fs := fsWrite s.fs readmePath readmeBytes }

/-- The nonempty prefixes of a path, shortest first. -/
def fsPrefixes (p : FPath) : List FPath :=
  (List.range p.length).map (fun i => p.take (i + 1))

/-- `Path.mkdir(parents=True, exist_ok=True)` in `__init__`: create each
missing ancestor directory of the raw-data root; a faulted creation raises. -/
def ensure_workspace (env : Env) (s : St) : R Unit :=
  let rec go (s : St) : List FPath → R Unit
    | [] => R.ok () s
    | q :: rest =>
      if fsExists s.fs q then go s rest
      else if env.writeFault q then R.err Err.osError s
      else go { s with fs := (q, Node.dir) :: s.fs } rest
  go s (fsPrefixes DATA_DIR)

/-- `DatasetDownloader.run`: print the banner, write the README, sync the two
datasets in order, print the final status lines. -/
def runAll (env : Env) (s : St) : R Unit :=
  let d := pathStr DATA_DIR
  let s := emits s
    ["Starting dataset download process...",
     "Data directory: " ++ d]
  match create_readme env s with
  | R.err e s1 => R.err e s1
  | R.ok _ s1 =>
    match download_gtsdb env s1 with
    | R.err e s2 => R.err e s2
    | R.ok _ s2 =>
      match download_lisa env s2 with
      | R.err e s3 => R.err e s3
      | R.ok _ s3 =>
        R.ok () (emits s3
          ["\n=== Download Process Complete ===",
           "Note: Some datasets may require manual download.",
           "Check the README.md in the data/raw directory for details."])

/-- The `__main__` block: construct the downloader (which creates the
workspace) and run it; a KeyboardInterrupt or any escaping exception is
reported and turned into exit code 1, normal completion exits 0. -/
def script_main (env : Env) (fs0 : FS) : Nat × St :=
  let s0 : St := { fs := fs0, ev := [] }
  if env.interrupted then
    (1, emit s0 (Event.print "\nDownload interrupted by user."))
  else
    match ensure_workspace env s0 with
    | R.err e s1 =>
      let m := e.toMessage
      (1, emit s1 (Event.print ("Error: " ++ m)))
    | R.ok _ s1 =>
      match runAll env s1 with
      | R.err e s2 =>
        let m := e.toMessage
        (1, emit s2 (Event.print ("Error: " ++ m)))
      | R.ok _ s2 => (0, s2)

/-! ### Basic filesystem lemmas -/

theorem chunks4096_foldl : ∀ (bs acc : List Nat),
    (chunks4096 bs).foldl (fun a c => a ++ c) acc = acc ++ bs
  | bs, acc => by
    by_cases h : bs = []
    · subst h
      simp [chunks4096]
    · rw [chunks4096, dif_neg h, List.foldl_cons,
        chunks4096_foldl (bs.drop 4096) (acc ++ bs.take 4096)]
      simp
termination_by bs => bs.length
decreasing_by
  simp only [List.length_drop]
  have hlen : 0 < bs.length := List.length_pos.mpr h
  omega

theorem lookup_filter_ne (fs : FS) (p q : FPath) (h : q ≠ p) :
    (fs.filter (fun e => !(e.1 == p))).lookup q = fs.lookup q := by
  induction fs with
  | nil => simp
  | cons e fs ih =>
    obtain ⟨k, v⟩ := e
    rw [List.filter_cons]
    by_cases hp : k = p
    · have hc : (!((k, v).1 == p)) = false := by simp [hp]
      rw [hc, if_neg (by simp)]
      have hq : (q == k) = false := by simp [hp, h]
      rw [ih, List.lookup_cons, hq]
    · have hc : (!((k, v).1 == p)) = true := by simp [hp]
      rw [hc, if_pos rfl]
      rw [List.lookup_cons, List.lookup_cons]
      cases hqk : q == k with
      | true => rfl
      | false => exact ih

theorem lookup_filter_self (fs : FS) (p : FPath) :
    (fs.filter (fun e => !(e.1 == p))).lookup p = none := by
  induction fs with
  | nil => simp
  | cons e fs ih =>
    obtain ⟨k, v⟩ := e
    rw [List.filter_cons]
    by_cases hp : k = p
    · have hc : (!((k, v).1 == p)) = false := by simp [hp]
      rw [hc, if_neg (by simp)]
      exact ih
    · have hc : (!((k, v).1 == p)) = true := by simp [hp]
      rw [hc, if_pos rfl]
      have hq : (p == k) = false := by simp [Ne.symm hp]
      rw [List.lookup_cons, hq, ih]

theorem fsFind_fsWrite_self (fs : FS) (p : FPath) (c : List Nat) :
    fsFind (fsWrite fs p c) p = some (Node.file c) := by
  simp [fsFind, fsWrite, List.lookup_cons]

theorem fsRead_fsWrite_self (fs : FS) (p : FPath) (c : List Nat) :
    fsRead (fsWrite fs p c) p = some c := by
  simp [fsRead, fsFind_fsWrite_self]

theorem fsFind_fsWrite_ne (fs : FS) (p q : FPath) (c : List Nat) (h : q ≠ p) :
    fsFind (fsWrite fs p c) q = fsFind fs q := by
  have hq : (q == p) = false := by simp [h]
  rw [fsFind, fsWrite, List.lookup_cons, hq]
  exact lookup_filter_ne fs p q h

theorem fsRead_fsWrite_ne (fs : FS) (p q : FPath) (c : List Nat) (h : q ≠ p) :
    fsRead (fsWrite fs p c) q = fsRead fs q := by
  simp [fsRead, fsFind_fsWrite_ne fs p q c h]

theorem fsFind_fsUnlink_self (fs : FS) (p : FPath) :
    fsFind (fsUnlink fs p) p = none := by
  simp [fsFind, fsUnlink, lookup_filter_self]

theorem fsFind_fsUnlink_ne (fs : FS) (p q : FPath) (h : q ≠ p) :
    fsFind (fsUnlink fs p) q = fsFind fs q := by
  simp [fsFind, fsUnlink, lookup_filter_ne fs p q h]

theorem fsRead_fsUnlink_ne (fs : FS) (p q : FPath) (h : q ≠ p) :
    fsRead (fsUnlink fs p) q = fsRead fs q := by
  simp [fsRead, fsFind_fsUnlink_ne fs p q h]

theorem fsExists_of_fsFind (fs : FS) (p : FPath) (n : Node) (h : fsFind fs p = some n) :
    fsExists fs p = true := by
  induction fs with
  | nil => simp [fsFind] at h
  | cons e fs ih =>
    obtain ⟨k, v⟩ := e
    rw [fsFind, List.lookup_cons] at h
    rw [fsExists, List.any_cons]
    show (p.isPrefixOf (k, v).1 || List.any fs fun e => p.isPrefixOf e.1) = true
    by_cases hk : p = k
    · have hself : p.isPrefixOf (k, v).1 = true :=
        List.isPrefixOf_iff_prefix.mpr (hk ▸ List.prefix_refl p)
      rw [hself, Bool.true_or]
    · have hk2 : (p == k) = false := by simp [hk]
      rw [hk2] at h
      have hrest : fsExists fs p = true := ih h
      rw [fsExists] at hrest
      rw [hrest, Bool.or_true]

/-! ### Skip-branch lemmas shared by the idempotency claims -/

theorem download_gtsdb_skip (env : Env) (s : St) (h : fsExists s.fs gtsdbDir = true) :
    download_gtsdb env s =
      R.ok () (emit s (Event.print "GTSDB already exists, skipping download.")) := by
  rw [download_gtsdb, if_pos h]

theorem download_lisa_skip (env : Env) (s : St) (h : fsExists s.fs lisaDir = true) :
    download_lisa env s =
      R.ok () (emit s (Event.print "LISA already exists, skipping download.")) := by
  rw [download_lisa, if_pos h]

/-! ### Shared concrete fixtures for witnesses -/

/-- A hash stub standing in for the abstract SHA-256 hex digest. -/
def stubHash (bs : List Nat) : String :=
  if bs = [7, 8] then "matchhash" else "otherhash"

/-- A fully failing environment: every URL unreachable, no archive decodes,
kagglehub unavailable and uninstallable, no hub results, no write faults,
no interrupt. -/
def envA : Env :=
  { net := fun _ => none,
    zipDecode := fun _ => none,
    tarDecode := fun _ => none,
    sha256hex := stubHash,
    kagglehubInstalled := false,
    pipxOk := false,
    pipOk := false,
    hub := fun _ => none,
    writeFault := fun _ => false,
    interrupted := false }

/-- A state whose raw-data root already holds both dataset directories. -/
def stDirs : St :=
  { fs := [(gtsdbDir, Node.dir), (lisaDir, Node.dir)], ev := [] }

/-- A state where plain files sit at both dataset target paths. -/
def stFiles : St :=
  { fs := [(gtsdbDir, Node.file [1]), (lisaDir, Node.file [2])], ev := [] }

/-- A state holding one data file to hash. -/
def stHash : St :=
  { fs := [(["data", "raw", "blob.bin"], Node.file [7, 8])], ev := [] }

/-! ### C1 -/

/-- C1: for both dataset syncs, if the dataset's target subdirectory under the
raw-data root already exists, the sync returns immediately as a no-op — the
filesystem is unchanged and the only new event is the skip message (in
particular no network, subprocess or hub event is emitted). -/
theorem sync_noop_when_target_exists (env : Env) (s : St)
    (hg : fsExists s.fs gtsdbDir = true) (hl : fsExists s.fs lisaDir = true) :
    (download_gtsdb env s =
       R.ok () (emit s (Event.print "GTSDB already exists, skipping download.")) ∧
     download_lisa env s =
       R.ok () (emit s (Event.print "LISA already exists, skipping download."))) ∧
    (∀ s1, download_gtsdb env s = R.ok () s1 →
       s1.fs = s.fs ∧ s1.ev = s.ev ++ [Event.print "GTSDB already exists, skipping download."]) ∧
    (∀ s1, download_lisa env s = R.ok () s1 →
       s1.fs = s.fs ∧ s1.ev = s.ev ++ [Event.print "LISA already exists, skipping download."]) := by
  refine ⟨⟨download_gtsdb_skip env s hg, download_lisa_skip env s hl⟩, ?_, ?_⟩
  · intro s1 h1
    rw [download_gtsdb_skip env s hg] at h1
    cases h1
    exact ⟨rfl, rfl⟩
  · intro s1 h1
    rw [download_lisa_skip env s hl] at h1
    cases h1
    exact ⟨rfl, rfl⟩

/-- Witness for C1 at a concrete state with both target directories present. -/
theorem sync_noop_when_target_exists_witness :
    fsExists stDirs.fs gtsdbDir = true ∧ fsExists stDirs.fs lisaDir = true ∧
    (download_gtsdb envA stDirs =
       R.ok () (emit stDirs (Event.print "GTSDB already exists, skipping download.")) ∧
     download_lisa envA stDirs =
       R.ok () (emit stDirs (Event.print "LISA already exists, skipping download."))) :=
  ⟨by decide, by decide,
    (sync_noop_when_target_exists envA stDirs (by decide) (by decide)).1⟩

/-! ### C10 -/

/-- C10: the idempotency guard tests only existence, not directory-ness — if a
plain file named `GTSDB` (resp. `LISA`) sits at the target path, the sync is
skipped exactly as if the dataset directory were present. -/
theorem skip_guard_ignores_node_kind (env : Env) (s : St) (cg cl : List Nat)
    (hg : fsFind s.fs gtsdbDir = some (Node.file cg))
    (hl : fsFind s.fs lisaDir = some (Node.file cl)) :
    download_gtsdb env s =
      R.ok () (emit s (Event.print "GTSDB already exists, skipping download.")) ∧
    download_lisa env s =
      R.ok () (emit s (Event.print "LISA already exists, skipping download.")) :=
  ⟨download_gtsdb_skip env s (fsExists_of_fsFind s.fs gtsdbDir (Node.file cg) hg),
   download_lisa_skip env s (fsExists_of_fsFind s.fs lisaDir (Node.file cl) hl)⟩

/-- Witness for C10 at a concrete state with plain files at the target paths. -/
theorem skip_guard_ignores_node_kind_witness :
    fsFind stFiles.fs gtsdbDir = some (Node.file [1]) ∧
    fsFind stFiles.fs lisaDir = some (Node.file [2]) ∧
    download_gtsdb envA stFiles =
      R.ok () (emit stFiles (Event.print "GTSDB already exists, skipping download.")) :=
  ⟨by decide, by decide,
    (skip_guard_ignores_node_kind envA stFiles [1] [2] (by decide) (by decide)).1⟩

/-! ### C5 -/

/-- C5: `verify_hash` streams the file in fixed 4096-byte chunks through the
SHA-256 accumulator and returns true exactly when the hex digest of the whole
contents is string-equal to the supplied expected hash. -/
theorem verify_hash_streams_whole_file (env : Env) (fs : FS) (filepath : FPath)
    (expected_hash : String) (content : List Nat)
    (h : fsRead fs filepath = some content) :
    verify_hash env fs filepath expected_hash =
      some (env.sha256hex content == expected_hash) := by
  simp only [verify_hash, h]
  rw [chunks4096_foldl content []]
  simp

/-- Witness for C5 at a concrete two-byte file, for a matching and a
non-matching expected hash. -/
theorem verify_hash_streams_whole_file_witness :
    fsRead stHash.fs ["data", "raw", "blob.bin"] = some [7, 8] ∧
    verify_hash envA stHash.fs ["data", "raw", "blob.bin"] "matchhash" =
      some (envA.sha256hex [7, 8] == "matchhash") ∧
    verify_hash envA stHash.fs ["data", "raw", "blob.bin"] "wrong" =
      some (envA.sha256hex [7, 8] == "wrong") :=
  ⟨by decide,
   verify_hash_streams_whole_file envA stHash.fs ["data", "raw", "blob.bin"]
     "matchhash" [7, 8] (by decide),
   verify_hash_streams_whole_file envA stHash.fs ["data", "raw", "blob.bin"]
     "wrong" [7, 8] (by decide)⟩

/-! ### C8 -/

/-- C8: `create_readme` unconditionally overwrites `README.md` at the raw-data
root with the fixed documentation text — no existence check gates it, and
whatever file was there before, afterwards the path holds exactly the fixed
text. -/
theorem create_readme_overwrites (env : Env) (s : St)
    (h : env.writeFault readmePath = false) :
    create_readme env s = R.ok () { s with fs := fsWrite s.fs readmePath readmeBytes } ∧
    (∀ s1, create_readme env s = R.ok () s1 →
       fsRead s1.fs readmePath = some readmeBytes) := by
  have hne : ¬(env.writeFault readmePath = true) := by simp [h]
  constructor
  · rw [create_readme, if_neg hne]
  · intro s1 h1
    rw [create_readme, if_neg hne] at h1
    cases h1
    exact fsRead_fsWrite_self s.fs readmePath readmeBytes

/-- A state where a different file already sits at the README path. -/
def stOldReadme : St :=
  { fs := [(readmePath, Node.file [0])], ev := [] }

/-- Witness for C8: a different pre-existing `README.md` is replaced by the
fixed text. -/
theorem create_readme_overwrites_witness :
    envA.writeFault readmePath = false ∧
    fsRead stOldReadme.fs readmePath = some [0] ∧
    create_readme envA stOldReadme =
      R.ok () { stOldReadme with fs := fsWrite stOldReadme.fs readmePath readmeBytes } :=
  ⟨by decide, by decide, (create_readme_overwrites envA stOldReadme (by decide)).1⟩

/-- Internal form of the `verify_hash` evaluation, shared by later proofs. -/
theorem verify_hash_eval (env : Env) (fs : FS) (filepath : FPath)
    (expected_hash : String) (content : List Nat)
    (h : fsRead fs filepath = some content) :
    verify_hash env fs filepath expected_hash =
      some (env.sha256hex content == expected_hash) := by
  simp only [verify_hash, h]
  rw [chunks4096_foldl content []]
  simp

/-! ### C4 -/

/-- C4: `extract_archive` dispatches on the lower-cased file extension — `.zip`
runs the zip branch, `.tar`/`.gz`/`.tgz` run the tar branch, and any other
extension raises `ValueError("Unsupported archive format: ...")` with the
filesystem untouched. -/
theorem extract_archive_dispatch (env : Env) (s : St) (archive_path extract_to : FPath) :
    (strLower (pathSuffix archive_path) = ".zip" →
       extract_archive env s archive_path extract_to =
         (match extract_zip env
             (emit s (Event.print ("Extracting " ++ pathStr archive_path ++ "...")))
             archive_path extract_to with
          | R.err e s1 => R.err e s1
          | R.ok _ s1 =>
            R.ok () (emit s1 (Event.print ("Extracted to " ++ pathStr extract_to))))) ∧
    (strLower (pathSuffix archive_path) ∈ [".tar", ".gz", ".tgz"] →
       extract_archive env s archive_path extract_to =
         (match extract_tar env
             (emit s (Event.print ("Extracting " ++ pathStr archive_path ++ "...")))
             archive_path extract_to with
          | R.err e s1 => R.err e s1
          | R.ok _ s1 =>
            R.ok () (emit s1 (Event.print ("Extracted to " ++ pathStr extract_to))))) ∧
    (strLower (pathSuffix archive_path) ∉ [".zip", ".tar", ".gz", ".tgz"] →
       extract_archive env s archive_path extract_to =
         R.err (Err.valueError ("Unsupported archive format: " ++ pathSuffix archive_path))
           (emit s (Event.print ("Extracting " ++ pathStr archive_path ++ "..."))) ∧
       (∀ e s1, extract_archive env s archive_path extract_to = R.err e s1 →
          s1.fs = s.fs)) := by
  refine ⟨?_, ?_, ?_⟩
  · intro h
    simp [extract_archive, h]
  · intro h
    simp only [List.mem_cons, List.mem_singleton, List.not_mem_nil, or_false] at h
    have hnz : (strLower (pathSuffix archive_path) == ".zip") = false := by
      rcases h with h | h | h <;> simp [h]
    rcases h with h | h | h <;> simp [extract_archive, h, hnz]
  · intro h
    simp only [List.mem_cons, List.mem_singleton, not_or] at h
    obtain ⟨h1, h2, h3, h4⟩ := h
    have heq : extract_archive env s archive_path extract_to =
        R.err (Err.valueError ("Unsupported archive format: " ++ pathSuffix archive_path))
          (emit s (Event.print ("Extracting " ++ pathStr archive_path ++ "..."))) := by
      simp [extract_archive, h1, h2, h3, h4]
    refine ⟨heq, ?_⟩
    intro e s1 he
    rw [heq] at he
    cases he
    rfl

/-- Witness for C4: a `.7z` archive is rejected with the filesystem untouched. -/
theorem extract_archive_dispatch_witness :
    strLower (pathSuffix ["a.7z"]) ∉ [".zip", ".tar", ".gz", ".tgz"] ∧
    extract_archive envA stDirs ["a.7z"] DATA_DIR =
      R.err (Err.valueError ("Unsupported archive format: " ++ pathSuffix ["a.7z"]))
        (emit stDirs (Event.print ("Extracting " ++ pathStr ["a.7z"] ++ "..."))) :=
  ⟨by decide,
   ((extract_archive_dispatch envA stDirs ["a.7z"] DATA_DIR).2.2 (by decide)).1⟩

/-! ### Environment-dependence lemmas for C9 -/

theorem extractMembers_congr (env env' : Env) (hw : env'.writeFault = env.writeFault)
    (s : St) (members : List (String × List Nat)) (extract_to : FPath) :
    extractMembers env' s members extract_to = extractMembers env s members extract_to := by
  induction members generalizing s with
  | nil => rfl
  | cons m rest ih =>
    obtain ⟨name, data⟩ := m
    simp only [extractMembers, hw]
    by_cases h : env.writeFault (memberPath extract_to name) = true
    · simp [h]
    · simp [h, ih]

theorem extract_archive_congr (env env' : Env)
    (hzip : env'.zipDecode = env.zipDecode) (htar : env'.tarDecode = env.tarDecode)
    (hw : env'.writeFault = env.writeFault) (s : St) (ap t : FPath) :
    extract_archive env' s ap t = extract_archive env s ap t := by
  simp only [extract_archive, extract_zip, extract_tar, hzip, htar,
    extractMembers_congr env env' hw]

theorem download_file_none_congr (env env' : Env) (hnet : env'.net = env.net)
    (hw : env'.writeFault = env.writeFault) (s : St) (url : String) (dest : FPath) :
    download_file env' s url dest none = download_file env s url dest none := by
  simp only [download_file, hnet, hw]

/-! ### C9 -/

/-- C9: the direct (GTSDB) sync calls fetch with no expected hash, so no
checksum verification is ever performed on that path — the sync's behaviour is
completely independent of the SHA-256 function (any two environments agreeing
on network, archive decoding and write faults give identical results), and its
fetch call can never raise the `ValueError` of the verification branch. -/
theorem gtsdb_sync_never_verifies_checksum (env env' : Env) (s : St)
    (hnet : env'.net = env.net) (hzip : env'.zipDecode = env.zipDecode)
    (htar : env'.tarDecode = env.tarDecode) (hw : env'.writeFault = env.writeFault) :
    download_gtsdb env' s = download_gtsdb env s ∧
    (∀ m s1, download_file env s GTSDB_URL gtsdbArchivePath none ≠
       R.err (Err.valueError m) s1) := by
  constructor
  · simp only [download_gtsdb, download_file_none_congr env env' hnet hw,
      extract_archive_congr env env' hzip htar hw]
  · intro m s1
    simp only [download_file]
    cases env.net GTSDB_URL with
    | none => simp
    | some content =>
      by_cases h : env.writeFault gtsdbArchivePath = true
      · simp [h]
      · simp [h]

/-- An environment differing from `envA` only in the hash function. -/
def envHashAlt : Env := { envA with sha256hex := fun _ => "unrelated" }

/-- Witness for C9: `envHashAlt` and `envA` disagree on the hash of `[7, 8]`
yet the GTSDB sync behaves identically under both. -/
theorem gtsdb_sync_never_verifies_checksum_witness :
    envHashAlt.sha256hex [7, 8] ≠ envA.sha256hex [7, 8] ∧
    download_gtsdb envHashAlt stHash = download_gtsdb envA stHash :=
  ⟨by decide,
   (gtsdb_sync_never_verifies_checksum envA envHashAlt stHash rfl rfl rfl rfl).1⟩

/-! ### C2 -/

/-- C2: when fetch is given an expected hash and the transport and write
succeed, a matching SHA-256 digest lets the call return normally, while a
mismatch raises `ValueError("Hash verification failed for ...")` — and in both
cases the destination file is on disk with exactly the downloaded contents. -/
theorem download_file_hash_check (env : Env) (s : St) (url : String) (dest : FPath)
    (expected : String) (content : List Nat)
    (hnet : env.net url = some content) (hw : env.writeFault dest = false) :
    ((env.sha256hex content == expected) = true →
       ∃ s1, download_file env s url dest (some expected) = R.ok () s1 ∧
         fsRead s1.fs dest = some content) ∧
    ((env.sha256hex content == expected) = false →
       ∃ s1, download_file env s url dest (some expected) =
           R.err (Err.valueError ("Hash verification failed for " ++ pathStr dest)) s1 ∧
         fsRead s1.fs dest = some content) := by
  have hv := verify_hash_eval env (fsWrite s.fs dest content) dest expected content
    (fsRead_fsWrite_self s.fs dest content)
  constructor
  · intro hbeq
    simp only [download_file, emit, hnet, hw, hv, hbeq, Bool.false_eq_true, if_false]
    exact ⟨_, rfl, fsRead_fsWrite_self s.fs dest content⟩
  · intro hbeq
    simp only [download_file, emit, hnet, hw, hv, hbeq, Bool.false_eq_true, if_false]
    exact ⟨_, rfl, fsRead_fsWrite_self s.fs dest content⟩

/-- A state with an empty filesystem and trace. -/
def stEmpty : St := { fs := [], ev := [] }

/-- An environment serving a two-byte file at one URL. -/
def envNet : Env :=
  { envA with net := fun u => if u = "http://x/f.bin" then some [7, 8] else none }

/-- Witness for C2: the served bytes hash (under the stub) to `"matchhash"`,
so fetching with that expected hash succeeds and fetching with `"wrong"`
raises, the file remaining in place both times. -/
theorem download_file_hash_check_witness :
    envNet.net "http://x/f.bin" = some [7, 8] ∧
    (∃ s1, download_file envNet stEmpty "http://x/f.bin" ["data", "raw", "f.bin"]
        (some "matchhash") = R.ok () s1 ∧
      fsRead s1.fs ["data", "raw", "f.bin"] = some [7, 8]) ∧
    (∃ s1, download_file envNet stEmpty "http://x/f.bin" ["data", "raw", "f.bin"]
        (some "wrong") =
          R.err (Err.valueError ("Hash verification failed for " ++
            pathStr ["data", "raw", "f.bin"])) s1 ∧
      fsRead s1.fs ["data", "raw", "f.bin"] = some [7, 8]) :=
  ⟨by decide,
   (download_file_hash_check envNet stEmpty "http://x/f.bin" ["data", "raw", "f.bin"]
      "matchhash" [7, 8] (by decide) (by decide)).1 (by decide),
   (download_file_hash_check envNet stEmpty "http://x/f.bin" ["data", "raw", "f.bin"]
      "wrong" [7, 8] (by decide) (by decide)).2 (by decide)⟩

/-! ### Per-dataset containment and exit-code lemmas for C3 -/

theorem download_gtsdb_total (env : Env) (s : St) :
    ∃ s1, download_gtsdb env s = R.ok () s1 := by
  simp only [download_gtsdb]
  repeat' split
  all_goals exact ⟨_, rfl⟩

theorem download_lisa_total (env : Env) (s : St) :
    ∃ s1, download_lisa env s = R.ok () s1 := by
  simp only [download_lisa]
  repeat' split
  all_goals exact ⟨_, rfl⟩

theorem gtsdb_fallback_logged (env : Env) (s : St)
    (hex : fsExists s.fs gtsdbDir = false) (hnet : env.net GTSDB_URL = none) :
    ∃ s1, download_gtsdb env s = R.ok () s1 ∧ Event.print GTSDB_FALLBACK_URL ∈ s1.ev := by
  simp only [download_gtsdb, hex, Bool.false_eq_true, if_false,
    download_file, hnet, gtsdbFallback, emit, emits]
  exact ⟨_, rfl, by simp⟩

theorem ensure_workspace_go_total (env : Env) (ps : List FPath) :
    ∀ s : St, (∀ q ∈ ps, env.writeFault q = false) →
      ∃ s1, ensure_workspace.go env s ps = R.ok () s1 := by
  induction ps with
  | nil =>
    intro s _
    exact ⟨_, rfl⟩
  | cons q rest ih =>
    intro s h
    rw [ensure_workspace.go]
    by_cases hex : fsExists s.fs q = true
    · rw [if_pos hex]
      exact ih _ (fun r hr => h r (List.mem_cons_of_mem q hr))
    · rw [if_neg hex]
      have hq : env.writeFault q = false := h q (List.mem_cons_self q rest)
      rw [if_neg (by simp [hq])]
      exact ih _ (fun r hr => h r (List.mem_cons_of_mem q hr))

theorem ensure_workspace_total (env : Env) (s : St)
    (h : ∀ q ∈ fsPrefixes DATA_DIR, env.writeFault q = false) :
    ∃ s1, ensure_workspace env s = R.ok () s1 :=
  ensure_workspace_go_total env (fsPrefixes DATA_DIR) s h

theorem runAll_total (env : Env) (s : St) (hrm : env.writeFault readmePath = false) :
    ∃ s1, runAll env s = R.ok () s1 := by
  rw [runAll]
  split
  next e s1 heq =>
    rw [create_readme, if_neg (by simp [hrm])] at heq
    cases heq
  next a s1 heq =>
    split
    next e s2 h2 =>
      obtain ⟨s3, h3⟩ := download_gtsdb_total env s1
      rw [h3] at h2
      cases h2
    next a2 s2 h2 =>
      split
      next e s3 h3 =>
        obtain ⟨s4, h4⟩ := download_lisa_total env s2
        rw [h4] at h3
        cases h3
      next a3 s3 h3 =>
        exact ⟨_, rfl⟩

theorem runAll_err_of_readme_fault (env : Env) (s : St)
    (hrm : env.writeFault readmePath = true) :
    ∃ s1, runAll env s = R.err Err.osError s1 := by
  rw [runAll]
  split
  next e s1 heq =>
    rw [create_readme, if_pos hrm] at heq
    cases heq
    exact ⟨_, rfl⟩
  next a s1 heq =>
    rw [create_readme, if_pos hrm] at heq
    cases heq

theorem script_main_exit1_interrupt (env : Env) (fs0 : FS) (hi : env.interrupted = true) :
    (script_main env fs0).1 = 1 := by
  simp [script_main, hi]

theorem script_main_exit0 (env : Env) (fs0 : FS)
    (hi : env.interrupted = false)
    (hws : ∀ q ∈ fsPrefixes DATA_DIR, env.writeFault q = false)
    (hrm : env.writeFault readmePath = false) :
    (script_main env fs0).1 = 0 := by
  simp only [script_main, hi, Bool.false_eq_true, if_false]
  split
  next e s1 heq =>
    obtain ⟨s2, h2⟩ := ensure_workspace_total env { fs := fs0, ev := [] } hws
    rw [h2] at heq
    cases heq
  next a s1 heq =>
    split
    next e s2 h2 =>
      obtain ⟨s3, h3⟩ := runAll_total env s1 hrm
      rw [h3] at h2
      cases h2
    next a2 s2 h2 => rfl

theorem script_main_exit1_readme (env : Env) (fs0 : FS)
    (hi : env.interrupted = false)
    (hws : ∀ q ∈ fsPrefixes DATA_DIR, env.writeFault q = false)
    (hrm : env.writeFault readmePath = true) :
    (script_main env fs0).1 = 1 := by
  simp only [script_main, hi, Bool.false_eq_true, if_false]
  split
  next e s1 heq => rfl
  next a s1 heq =>
    split
    next e s2 h2 => rfl
    next a2 s2 h2 =>
      obtain ⟨s3, h3⟩ := runAll_err_of_readme_fault env s1 hrm
      rw [h3] at h2
      cases h2

/-! ### C3 -/

/-- C3: every failure inside a per-dataset sync is caught at that sync's
boundary (both syncs always return normally, and a failing GTSDB download
still logs the manual-fallback URL); the run exits 0 whenever the only
failures are per-dataset ones, while a user interrupt, or a README-write
failure outside the per-dataset try-scopes, exits 1. -/
theorem per_dataset_failures_contained :
    (∀ env s, ∃ s1, download_gtsdb env s = R.ok () s1) ∧
    (∀ env s, ∃ s1, download_lisa env s = R.ok () s1) ∧
    (∀ env s, fsExists s.fs gtsdbDir = false → env.net GTSDB_URL = none →
       ∃ s1, download_gtsdb env s = R.ok () s1 ∧
         Event.print GTSDB_FALLBACK_URL ∈ s1.ev) ∧
    (∀ env fs0, env.interrupted = true → (script_main env fs0).1 = 1) ∧
    (∀ env fs0, env.interrupted = false →
       (∀ q ∈ fsPrefixes DATA_DIR, env.writeFault q = false) →
       env.writeFault readmePath = false →
       (script_main env fs0).1 = 0) ∧
    (∀ env fs0, env.interrupted = false →
       (∀ q ∈ fsPrefixes DATA_DIR, env.writeFault q = false) →
       env.writeFault readmePath = true →
       (script_main env fs0).1 = 1) :=
  ⟨download_gtsdb_total, download_lisa_total,
   fun env s hex hnet => gtsdb_fallback_logged env s hex hnet,
   script_main_exit1_interrupt, script_main_exit0, script_main_exit1_readme⟩

/-- An interrupted environment. -/
def envI : Env := { envA with interrupted := true }

/-- An environment whose only write fault is on the README path. -/
def envRF : Env := { envA with writeFault := fun p => p == readmePath }

/-- Witness for C3: one contained per-dataset failure run (exit 0), an
interrupted run (exit 1) and a README-fault run (exit 1), plus a logged
GTSDB fallback at a concrete state. -/
theorem per_dataset_failures_contained_witness :
    (∃ s1, download_gtsdb envA stEmpty = R.ok () s1 ∧
       Event.print GTSDB_FALLBACK_URL ∈ s1.ev) ∧
    (script_main envI []).1 = 1 ∧
    (script_main envA []).1 = 0 ∧
    (script_main envRF []).1 = 1 :=
  ⟨per_dataset_failures_contained.2.2.1 envA stEmpty (by decide) (by decide),
   per_dataset_failures_contained.2.2.2.1 envI [] (by decide),
   per_dataset_failures_contained.2.2.2.2.1 envA [] (by decide) (by decide) (by decide),
   per_dataset_failures_contained.2.2.2.2.2 envRF [] (by decide) (by decide) (by decide)⟩

/-! ### Extraction-effect lemmas for C6 -/

/-- The filesystem effect of extracting a member list: write each member under
the destination, in order. -/
def writeMembers (fs : FS) (members : List (String × List Nat)) (dest : FPath) : FS :=
  match members with
  | [] => fs
  | (n, d) :: rest => writeMembers (fsWrite fs (memberPath dest n) d) rest dest

theorem extractMembers_ok (env : Env) (members : List (String × List Nat))
    (dest : FPath) (hw : ∀ m ∈ members, env.writeFault (memberPath dest m.1) = false) :
    ∀ s : St, extractMembers env s members dest =
      R.ok () { s with fs := writeMembers s.fs members dest } := by
  induction members with
  | nil => intro s; rfl
  | cons m rest ih =>
    intro s
    obtain ⟨n, d⟩ := m
    have hn : env.writeFault (memberPath dest n) = false :=
      hw (n, d) (List.mem_cons_self _ _)
    rw [extractMembers, if_neg (by simp [hn])]
    rw [ih (fun x hx => hw x (List.mem_cons_of_mem _ hx))]
    rfl

theorem fsFind_writeMembers_notmem (members : List (String × List Nat)) (dest : FPath)
    (p : FPath) (h : ∀ m ∈ members, memberPath dest m.1 ≠ p) :
    ∀ fs : FS, fsFind (writeMembers fs members dest) p = fsFind fs p := by
  induction members with
  | nil => intro fs; rfl
  | cons m rest ih =>
    intro fs
    obtain ⟨n, d⟩ := m
    rw [writeMembers, ih (fun x hx => h x (List.mem_cons_of_mem _ hx))]
    exact fsFind_fsWrite_ne fs (memberPath dest n) p d
      (fun he => h (n, d) (List.mem_cons_self _ _) he.symm)

theorem fsRead_writeMembers_mem (members : List (String × List Nat)) (dest : FPath)
    (hnodup : (members.map (fun m => memberPath dest m.1)).Nodup) :
    ∀ (m : String × List Nat), m ∈ members →
      ∀ fs : FS, fsRead (writeMembers fs members dest) (memberPath dest m.1) = some m.2 := by
  induction members with
  | nil =>
    intro m hm
    simp at hm
  | cons m0 rest ih =>
    intro m hm fs
    obtain ⟨n0, d0⟩ := m0
    rw [List.map_cons, List.nodup_cons] at hnodup
    rcases List.mem_cons.mp hm with he | hr
    · subst he
      rw [writeMembers]
      have hne : ∀ x ∈ rest, memberPath dest x.1 ≠ memberPath dest (n0, d0).1 := by
        intro x hx he
        exact hnodup.1 (he ▸ List.mem_map_of_mem (fun m => memberPath dest m.1) hx)
      rw [fsRead, fsFind_writeMembers_notmem rest dest _ hne]
      rw [← fsRead]
      exact fsRead_fsWrite_self fs (memberPath dest (n0, d0).1) d0
    · rw [writeMembers]
      exact ih hnodup.2 m hr _

/-! ### C6 -/

/-- C6: starting from a state without the GTSDB target, when the direct URL
serves an archive that decodes into members (with no write faults, no
duplicate member targets, and no member shadowing the temporary archive
path), `download_gtsdb` succeeds, every archive member is extracted to its
path under the raw-data root, and the temporary archive file is deleted. -/
theorem gtsdb_sync_extracts_and_cleans (env : Env) (s : St) (content : List Nat)
    (members : List (String × List Nat))
    (hex : fsExists s.fs gtsdbDir = false)
    (hnet : env.net GTSDB_URL = some content)
    (hwa : env.writeFault gtsdbArchivePath = false)
    (hzip : env.zipDecode content = some members)
    (hwm : ∀ m ∈ members, env.writeFault (memberPath DATA_DIR m.1) = false)
    (hnodup : (members.map (fun m => memberPath DATA_DIR m.1)).Nodup)
    (hnoclash : ∀ m ∈ members, memberPath DATA_DIR m.1 ≠ gtsdbArchivePath) :
    ∃ s1, download_gtsdb env s = R.ok () s1 ∧
      (∀ m ∈ members, fsRead s1.fs (memberPath DATA_DIR m.1) = some m.2) ∧
      fsFind s1.fs gtsdbArchivePath = none := by
  have harch : (strLower (pathSuffix gtsdbArchivePath) == ".zip") = true := by decide
  have hem := extractMembers_ok env members DATA_DIR hwm
  simp only [download_gtsdb, hex, Bool.false_eq_true, if_false, download_file, hnet,
    hwa, emit, emits, extract_archive, harch, if_true, extract_zip, fsRead_fsWrite_self,
    hzip, hem]
  refine ⟨_, rfl, ?_, ?_⟩
  · intro m hm
    show fsRead (fsUnlink (writeMembers (fsWrite s.fs gtsdbArchivePath content)
      members DATA_DIR) gtsdbArchivePath) (memberPath DATA_DIR m.1) = some m.2
    rw [fsRead_fsUnlink_ne _ _ _ (hnoclash m hm)]
    exact fsRead_writeMembers_mem members DATA_DIR hnodup m hm _
  · show fsFind (fsUnlink (writeMembers (fsWrite s.fs gtsdbArchivePath content)
      members DATA_DIR) gtsdbArchivePath) gtsdbArchivePath = none
    exact fsFind_fsUnlink_self _ _

/-- An environment serving a one-member zip archive at the GTSDB URL. -/
def envD : Env :=
  { envA with
    net := fun u => if u = GTSDB_URL then some [1] else none,
    zipDecode := fun bs => if bs = [1] then some [("GTSDB/a.txt", [2])] else none }

/-- Witness for C6: from an empty root, the sync extracts `GTSDB/a.txt` under
the raw-data root and removes the temporary archive. -/
theorem gtsdb_sync_extracts_and_cleans_witness :
    envD.net GTSDB_URL = some [1] ∧
    envD.zipDecode [1] = some [("GTSDB/a.txt", [2])] ∧
    ∃ s1, download_gtsdb envD stEmpty = R.ok () s1 ∧
      (∀ m ∈ [("GTSDB/a.txt", [2])], fsRead s1.fs (memberPath DATA_DIR m.1) = some m.2) ∧
      fsFind s1.fs gtsdbArchivePath = none :=
  ⟨by decide, by decide,
   gtsdb_sync_extracts_and_cleans envD stEmpty [1] [("GTSDB/a.txt", [2])]
     (by decide) (by decide) (by decide) (by decide) (by decide) (by decide) (by decide)⟩

/-! ### C7 -/

/-- C7: a full run that exits 0 decomposes into the fixed sequence — workspace
creation, then the banner prints and README write, then the GTSDB sync, then
the LISA sync, then the final status prints — each step consuming exactly the
state produced by the previous one. -/
theorem run_steps_in_fixed_order (env : Env) (fs0 : FS) (sf : St)
    (hi : env.interrupted = false)
    (hrun : script_main env fs0 = (0, sf)) :
    ∃ s1 s2 s3 s4,
      ensure_workspace env { fs := fs0, ev := [] } = R.ok () s1 ∧
      create_readme env (emits s1
        ["Starting dataset download process...",
         "Data directory: " ++ pathStr DATA_DIR]) = R.ok () s2 ∧
      download_gtsdb env s2 = R.ok () s3 ∧
      download_lisa env s3 = R.ok () s4 ∧
      sf = emits s4
        ["\n=== Download Process Complete ===",
         "Note: Some datasets may require manual download.",
         "Check the README.md in the data/raw directory for details."] := by
  simp only [script_main, hi, Bool.false_eq_true, if_false] at hrun
  split at hrun
  next e s1 heq => simp at hrun
  next a s1 heq =>
    split at hrun
    next e s2 h2 => simp at hrun
    next a2 s2 h2 =>
      injection hrun with h0 hsf
      simp only [runAll] at h2
      split at h2
      next e s3 h3 => cases h2
      next a3 s3 h3 =>
        split at h2
        next e s4 h4 => cases h2
        next a4 s4 h4 =>
          split at h2
          next e s5 h5 => cases h2
          next a5 s5 h5 =>
            cases h2
            exact ⟨s1, s3, s4, s5, heq, h3, h4, h5, hsf.symm⟩

/-- Witness for C7 on a concrete full run (all soft failures contained,
exit code 0). -/
theorem run_steps_in_fixed_order_witness :
    envA.interrupted = false ∧
    ∃ s1 s2 s3 s4,
      ensure_workspace envA { fs := [], ev := [] } = R.ok () s1 ∧
      create_readme envA (emits s1
        ["Starting dataset download process...",
         "Data directory: " ++ pathStr DATA_DIR]) = R.ok () s2 ∧
      download_gtsdb envA s2 = R.ok () s3 ∧
      download_lisa envA s3 = R.ok () s4 ∧
      (script_main envA []).2 = emits s4
        ["\n=== Download Process Complete ===",
         "Note: Some datasets may require manual download.",
         "Check the README.md in the data/raw directory for details."] := by
  refine ⟨rfl, ?_⟩
  have h1 : (script_main envA []).1 = 0 := by decide
  have hpair : script_main envA [] = (0, (script_main envA []).2) := by
    rw [← h1]
  exact run_steps_in_fixed_order envA [] (script_main envA []).2 rfl hpair
